import Mathlib

/-!
# tcpserver: accept loop and connection handles

A shallow embedding of `tcpserver.go`.

* The collaborators outside the repository (package `net`, `crypto/tls`, `log`, the
  `logger` package and the user's callbacks) are not executed.  Every call the code makes
  to one of them is recorded as an `Event`, in program order, together with the answer the
  collaborator gave; the answers are inputs of the embedded functions.
* A Go pair `(value, error)` coming from the standard library is a sum: the value on
  success, the error (with the zero value: a nil interface, an empty struct) on failure.
* An interface, pointer or func value that may be nil is an `Option`.
* `*server` and `*Client` are represented by the record they point to.  `Listen` never
  writes to the server, so the record stored in a handle is the listening server.
* `for { ... }` without exit consumes the accept results the listener supplies; when
  they are used up the loop is still inside `listener.Accept()` (`Result.blocked`).
* `go f()` is the event `Event.go`: the caller does not run `f`, it goes on with the
  statement after it.  What the new goroutine runs is `Client.listen`.
-/

namespace tcpserver

/-- A byte slice, Go type `[]byte`. -/
abbrev Bytes := List (Fin 256)

/-- A non-nil `error` value, identified by its message. -/
abbrev Err := String

/-- A non-nil `net.Conn` value, identified by a number. -/
abbrev Conn := Nat

/-- A non-nil `net.Listener` value, identified by a number. -/
abbrev Listener := Nat

/-- The part of `tls.Certificate` that matters here; its zero value has an empty chain and
no private key. -/
structure Certificate where
  chain : List Bytes
  privateKey : Option Nat
deriving DecidableEq, Repr

/-- The zero value `tls.Certificate{}`. -/
def Certificate.zero : Certificate := { chain := [], privateKey := none }

/-- The only field of `tls.Config` the code sets. -/
structure Config where
  Certificates : List Certificate
deriving DecidableEq, Repr

/-- Answer of `net.Listen` and of `tls.Listen`. -/
inductive BindResult where
  | ok (listener : Listener)
  | fail (err : Err)
deriving DecidableEq, Repr

/-- Answer of `listener.Accept()`. -/
inductive AcceptResult where
  | conn (k : Conn)
  | fail (err : Err)
deriving DecidableEq, Repr

/-- First component of the pair `listener.Accept()` returns: nil on failure. -/
def AcceptResult.connection : AcceptResult → Option Conn
  | .conn k => some k
  | .fail _ => none

/-- Second component of the pair `listener.Accept()` returns. -/
def AcceptResult.err : AcceptResult → Option Err
  | .conn _ => none
  | .fail e => some e

/-- Answer of `tls.LoadX509KeyPair`. -/
inductive LoadResult where
  | ok (cert : Certificate)
  | fail (err : Err)
deriving DecidableEq, Repr

/-- First component of the pair `tls.LoadX509KeyPair` returns: the zero certificate on
failure. -/
def LoadResult.cert : LoadResult → Certificate
  | .ok c => c
  | .fail _ => Certificate.zero

/-- Second component of the pair `tls.LoadX509KeyPair` returns. -/
def LoadResult.err : LoadResult → Option Err
  | .ok _ => none
  | .fail e => some e

/-- Answer of `Connection.Write`: bytes written and error. -/
structure WriteResult where
  n : Nat
  err : Option Err
deriving DecidableEq, Repr

/-- Non-nil values of type `func(c *Client)`: the literal `func(c *Client) {}` of `New` and
`NewWithTLS`, or a function of the caller. -/
inductive NewClientFunc where
  | empty
  | user (id : Nat)
deriving DecidableEq, Repr

/-- Non-nil values of type `func(c *Client, err error)`: the literal
`func(c *Client, err error) {}`, or a function of the caller. -/
inductive ClosedFunc where
  | empty
  | user (id : Nat)
deriving DecidableEq, Repr

/-- TCP server (`type server struct`). -/
structure server where
  address : String
  config : Option Config
  onNewClientCallback : Option NewClientFunc
  onClientConnectionClosed : Option ClosedFunc
deriving DecidableEq, Repr

/-- Client holds info about connection (`type Client struct`). -/
structure Client where
  Connection : Option Conn
  Server : Option server
deriving DecidableEq, Repr

/-- One call to a collaborator outside the repository, with its arguments and its answer. -/
inductive Event where
  | logPrintln (args : List String)
  | logFatal (msg : String)
  | loggerDebug (tag : String) (payload : Bytes)
  | loadX509KeyPair (certFile keyFile : String) (res : LoadResult)
  | netListen (network address : String) (res : BindResult)
  | tlsListen (network address : String) (config : Config) (res : BindResult)
  | accept (listener : Listener) (res : AcceptResult)
  | go (client : Client)
  | listenerClose (listener : Listener)
  | callNewClient (f : NewClientFunc) (c : Client)
  | callClosed (f : ClosedFunc) (c : Client) (err : Option Err)
  | write (k : Conn) (b : Bytes) (res : WriteResult)
  | close (k : Conn) (res : Option Err)
deriving DecidableEq, Repr

/-- How a call ended. -/
inductive Result (α : Type) where
  | ret (a : α)
  | panic
  | exit (code : Nat)
  | blocked (listener : Listener)
deriving DecidableEq, Repr

/-- The events of a call, oldest first, and how it ended. -/
structure Run (α : Type) where
  trace : List Event
  result : Result α
deriving DecidableEq, Repr

/-- What the body of a func literal of the source does: `{}` does nothing and returns.  The
body of a caller's function is not part of the repository. -/
def NewClientFunc.body : NewClientFunc → Client → Option (List Event)
  | .empty, _ => some []
  | .user _, _ => none

/-- What the body of the literal `func(c *Client, err error) {}` does: nothing. -/
def ClosedFunc.body : ClosedFunc → Client → Option Err → Option (List Event)
  | .empty, _, _ => some []
  | .user _, _, _ => none

/-! ## Client -/

/-- Source lines 25-28: `c.Server.onNewClientCallback(c)`. -/
def Client.listen (c : Client) : Run Unit :=
  match c.Server with
  | none => ⟨[], .panic⟩
  | some s =>
    match s.onNewClientCallback with
    | none => ⟨[], .panic⟩
    | some f => ⟨[.callNewClient f c], .ret ()⟩

/-- Source lines 30-35: log the payload, one `Write`, return its error. -/
def Client.Send (c : Client) (message : Bytes) (res : WriteResult) : Run (Option Err) :=
  match c.Connection with
  | none => ⟨[.loggerDebug "Send" message], .panic⟩
  | some k => ⟨[.loggerDebug "Send" message, .write k message res], .ret res.err⟩

/-- Source lines 37-41: one `Write`, return its error. -/
def Client.SendBytes (c : Client) (b : Bytes) (res : WriteResult) : Run (Option Err) :=
  match c.Connection with
  | none => ⟨[], .panic⟩
  | some k => ⟨[.write k b res], .ret res.err⟩

/-- Source lines 43-46: `return c.Connection`. -/
def Client.Conn (c : Client) : Run (Option Conn) :=
  ⟨[], .ret c.Connection⟩

/-- Source lines 48-51: `return c.Connection.Close()`. -/
def Client.Close (c : Client) (res : Option Err) : Run (Option Err) :=
  match c.Connection with
  | none => ⟨[], .panic⟩
  | some k => ⟨[.close k res], .ret res⟩

/-! ## server -/

/-- Source lines 53-56: `s.onNewClientCallback = callback`. -/
def server.OnNewClient (s : server) (callback : Option NewClientFunc) : server :=
  { s with onNewClientCallback := callback }

/-- Source lines 58-61: `s.onClientConnectionClosed = callback`. -/
def server.OnClientConnectionClosed (s : server) (callback : Option ClosedFunc) : server :=
  { s with onClientConnectionClosed := callback }

/-- Control after one run of a loop body: go round again, or leave the loop. -/
inductive Ctl where
  | next
  | leave
deriving DecidableEq, Repr

/-- Go's `for { body }`, one run of the body per input: the events made, and whether the
loop was left (`leave`) or is waiting for its next input (`next`). -/
def forLoop {ι : Type} (body : ι → Ctl × List Event) : List ι → Ctl × List Event
  | [] => (.next, [])
  | i :: rest =>
    match body i with
    | (.leave, es) => (.leave, es)
    | (.next, es) => ((forLoop body rest).1, es ++ (forLoop body rest).2)

/-- Source lines 67-71: the bind call, plaintext when `s.config == nil`, else TLS. -/
def server.bindCall (s : server) (res : BindResult) : Event :=
  match s.config with
  | none => .netListen "tcp" s.address res
  | some config => .tlsListen "tcp" s.address config res

/-- Source lines 78-83: the body of the accept loop.  The error of `Accept` is discarded
(`Connection, _ := listener.Accept()`); the body has no `break` and no `return`. -/
def server.acceptBody (s : server) (listener : Listener) (r : AcceptResult) :
    Ctl × List Event :=
  let Connection := r.connection
  let client : Client := { Connection := Connection, Server := some s }
  (.next, [.accept listener r, .go client])

/-- Source lines 63-85: Listen starts network server.  `bind` is the answer to the bind
call, `accepts` the answers of `listener.Accept()` in order.  `log.Fatal` prints and calls
`os.Exit(1)`; the deferred `listener.Close()` runs only if the loop is left. -/
def server.Listen (s : server) (bind : BindResult) (accepts : List AcceptResult) : Run Unit :=
  match bind with
  | .fail _ => ⟨[s.bindCall bind, .logFatal "Error starting TCP server."], .exit 1⟩
  | .ok listener =>
    match forLoop (s.acceptBody listener) accepts with
    | (.next, es) => ⟨s.bindCall bind :: es, .blocked listener⟩
    | (.leave, es) => ⟨s.bindCall bind :: es ++ [.listenerClose listener], .ret ()⟩

/-- Source lines 87-99: New Creates new tcp server instance. -/
def New (address : String) : Run server :=
  let srv : server :=
    { address := address, config := none,
      onNewClientCallback := none, onClientConnectionClosed := none }
  let srv := srv.OnNewClient (some .empty)
  let srv := srv.OnClientConnectionClosed (some .empty)
  ⟨[.logPrintln ["Creating server with address", address]], .ret srv⟩

/-- Source lines 101-117: NewWithTLS Creates new ssl tcp server instance.  The error of
`tls.LoadX509KeyPair` is discarded (`cert, _ := ...`). -/
def NewWithTLS (address certFile keyFile : String) (load : LoadResult) : Run server :=
  let cert := load.cert
  let config : Config := { Certificates := [cert] }
  let srv : server :=
    { address := address, config := some config,
      onNewClientCallback := none, onClientConnectionClosed := none }
  let srv := srv.OnNewClient (some .empty)
  let srv := srv.OnClientConnectionClosed (some .empty)
  ⟨[.logPrintln ["Creating server with address", address],
    .loadX509KeyPair certFile keyFile load], .ret srv⟩

/-! ## Reading a trace -/

/-- The handles handed to `go client.listen()`, in order. -/
def dispatched : List Event → List Client
  | [] => []
  | .go c :: rest => c :: dispatched rest
  | _ :: rest => dispatched rest

/-- The connections of the successful accepts, in order. -/
def accepted : List AcceptResult → List Conn
  | [] => []
  | .conn k :: rest => k :: accepted rest
  | .fail _ :: rest => accepted rest

/-- The handles dispatched before the next call of `Accept`. -/
def dispatchedBeforeAccept : List Event → List Client
  | [] => []
  | .accept _ _ :: _ => []
  | .go c :: rest => c :: dispatchedBeforeAccept rest
  | _ :: rest => dispatchedBeforeAccept rest

/-- The trace cut at the calls of `Accept`: each answer of `Accept` with the handles
dispatched after it and before the next call of `Accept`. -/
def iterations : List Event → List (AcceptResult × List Client)
  | [] => []
  | .accept _ r :: rest => (r, dispatchedBeforeAccept rest) :: iterations rest
  | _ :: rest => iterations rest

/-- For each successful accept of the trace, in order: the accepted connection and the
handles dispatched for it. -/
def dispatchedPerConnection (tr : List Event) : List (Conn × List Client) :=
  (iterations tr).filterMap fun g =>
    match g.1 with
    | .conn k => some (k, g.2)
    | .fail _ => none

/-- Is the event a bind call (`net.Listen` or `tls.Listen`)? -/
def Event.isBind : Event → Bool
  | .netListen _ _ _ => true
  | .tlsListen _ _ _ _ => true
  | _ => false

/-- Is the event a call of `listener.Accept()`? -/
def Event.isAccept : Event → Bool
  | .accept _ _ => true
  | _ => false

/-- Is the event a call of an `onNewClient` callback? -/
def Event.isNewClientCall : Event → Bool
  | .callNewClient _ _ => true
  | _ => false

/-- Is the event a call of an `onClientConnectionClosed` callback? -/
def Event.isClosedCall : Event → Bool
  | .callClosed _ _ _ => true
  | _ => false

/-- The calls of `Write` of a trace: connection and argument. -/
def writes : List Event → List (Conn × Bytes)
  | [] => []
  | .write k b _ :: rest => (k, b) :: writes rest
  | _ :: rest => writes rest

/-- The bytes the transport took for connection `k`: of each `Write` on `k` the first `n`
bytes of its argument, `n` the count `Write` returned. -/
def delivered (k : Conn) : List Event → Bytes
  | [] => []
  | .write k1 b res :: rest =>
    if k1 = k then b.take res.n ++ delivered k rest else delivered k rest
  | _ :: rest => delivered k rest

/-- The check `tls.Listen` of `crypto/tls` makes on its configuration before binding: it
refuses one that holds no certificate (`GetCertificate` and `GetConfigForClient` are never
set by this package). -/
def tlsListenRefuses (config : Config) : Bool :=
  config.Certificates.isEmpty

/-- The events of the accept loop of `s` on `listener` for the answers `rs`: per answer, the
call of `Accept` and the dispatch of a handle made from it. -/
def acceptEvents (s : server) (listener : Listener) : List AcceptResult → List Event
  | [] => []
  | r :: rest =>
    .accept listener r :: .go { Connection := r.connection, Server := some s } ::
      acceptEvents s listener rest

/-- The contract of `io.Writer` for the answer to `Write(b)`: `0 <= n <= len(b)`, and a nil
error only when all of `b` was written. -/
def WriteResult.obeys (res : WriteResult) (b : Bytes) : Prop :=
  res.n ≤ b.length ∧ (res.err = none → res.n = b.length)

/-- One call into the package, with the answers of the collaborators it consults. -/
inductive Op where
  | new (address : String)
  | newWithTLS (address certFile keyFile : String) (load : LoadResult)
  | onNewClient (s : server) (callback : Option NewClientFunc)
  | onClientConnectionClosed (s : server) (callback : Option ClosedFunc)
  | serve (s : server) (bind : BindResult) (accepts : List AcceptResult)
  | dispatch (c : Client)
  | send (c : Client) (message : Bytes) (res : WriteResult)
  | sendBytes (c : Client) (b : Bytes) (res : WriteResult)
  | conn (c : Client)
  | close (c : Client) (res : Option Err)

/-- The events of one call: `serve` is `Listen` (bind, accepts, dispatches), `dispatch` the
goroutine `Client.listen`; the two setters only store a value. -/
def Op.events : Op → List Event
  | .new address => (New address).trace
  | .newWithTLS address certFile keyFile load => (NewWithTLS address certFile keyFile load).trace
  | .onNewClient _ _ => []
  | .onClientConnectionClosed _ _ => []
  | .serve s bind accepts => (s.Listen bind accepts).trace
  | .dispatch c => c.listen.trace
  | .send c message res => (c.Send message res).trace
  | .sendBytes c b res => (c.SendBytes b res).trace
  | .conn c => c.Conn.trace
  | .close c res => (c.Close res).trace

/-- The events of a sequence of calls, in order. -/
def runOps : List Op → List Event
  | [] => []
  | op :: rest => op.events ++ runOps rest

/-! ## The accept loop -/

theorem forLoop_acceptBody (s : server) (listener : Listener) (rs : List AcceptResult) :
    forLoop (s.acceptBody listener) rs = (.next, acceptEvents s listener rs) := by
  induction rs with
  | nil => rfl
  | cons r rest ih => simp [forLoop, server.acceptBody, acceptEvents, ih]

theorem Listen_ok (s : server) (listener : Listener) (rs : List AcceptResult) :
    s.Listen (.ok listener) rs =
      ⟨s.bindCall (.ok listener) :: acceptEvents s listener rs, .blocked listener⟩ := by
  simp [server.Listen, forLoop_acceptBody]

theorem acceptEvents_append (s : server) (listener : Listener) (rs qs : List AcceptResult) :
    acceptEvents s listener (rs ++ qs) =
      acceptEvents s listener rs ++ acceptEvents s listener qs := by
  induction rs with
  | nil => rfl
  | cons r rest ih => simp [acceptEvents, ih]

theorem dispatchedBeforeAccept_acceptEvents (s : server) (listener : Listener)
    (rs : List AcceptResult) : dispatchedBeforeAccept (acceptEvents s listener rs) = [] := by
  cases rs <;> simp [acceptEvents, dispatchedBeforeAccept]

theorem iterations_acceptEvents (s : server) (listener : Listener) (rs : List AcceptResult) :
    iterations (acceptEvents s listener rs) =
      rs.map fun r => (r, [({ Connection := r.connection, Server := some s } : Client)]) := by
  induction rs with
  | nil => rfl
  | cons r rest ih =>
    simp [acceptEvents, iterations, dispatchedBeforeAccept,
      dispatchedBeforeAccept_acceptEvents, ih]

theorem iterations_bindCall (s : server) (res : BindResult) (es : List Event) :
    iterations (s.bindCall res :: es) = iterations es := by
  unfold server.bindCall
  cases s.config <;> simp [iterations]

theorem dispatched_bindCall (s : server) (res : BindResult) (es : List Event) :
    dispatched (s.bindCall res :: es) = dispatched es := by
  unfold server.bindCall
  cases s.config <;> simp [dispatched]

theorem dispatched_acceptEvents (s : server) (listener : Listener) (rs : List AcceptResult) :
    dispatched (acceptEvents s listener rs) =
      rs.map fun r => ({ Connection := r.connection, Server := some s } : Client) := by
  induction rs with
  | nil => rfl
  | cons r rest ih => simp [acceptEvents, dispatched, ih]

theorem dispatchedPerConnection_acceptEvents (s : server) (listener : Listener)
    (rs : List AcceptResult) :
    dispatchedPerConnection (acceptEvents s listener rs) =
      (accepted rs).map fun k => (k, [({ Connection := some k, Server := some s } : Client)]) := by
  unfold dispatchedPerConnection
  rw [iterations_acceptEvents]
  induction rs with
  | nil => rfl
  | cons r rest ih =>
    cases r with
    | conn k => simpa [accepted, AcceptResult.connection] using ih
    | fail e => simpa [accepted] using ih

theorem dispatched_connected_acceptEvents (s : server) (listener : Listener)
    (rs : List AcceptResult) :
    (dispatched (acceptEvents s listener rs)).filter (fun c => c.Connection.isSome) =
      (accepted rs).map fun k => ({ Connection := some k, Server := some s } : Client) := by
  rw [dispatched_acceptEvents]
  induction rs with
  | nil => rfl
  | cons r rest ih =>
    cases r with
    | conn k => simpa [accepted, AcceptResult.connection] using ih
    | fail e => simpa [accepted, AcceptResult.connection] using ih

/-- C1: once the bind has succeeded, whatever the listener answers to the accepts, each
successfully accepted connection `k` gets exactly one dispatch, of the handle whose
`Connection` is `k` and whose `Server` is the listening server; no other dispatched handle
carries a connection; the dispatched goroutine calls the callback registered on that
server, once, with that handle; handles of distinct connections are distinct. -/
theorem Listen_dispatches_once_per_accepted_connection (s : server) (listener : Listener)
    (rs : List AcceptResult) :
    dispatchedPerConnection (s.Listen (.ok listener) rs).trace =
        (accepted rs).map
          (fun k => (k, [({ Connection := some k, Server := some s } : Client)]))
    ∧ (dispatched (s.Listen (.ok listener) rs).trace).filter (fun c => c.Connection.isSome) =
        (accepted rs).map (fun k => ({ Connection := some k, Server := some s } : Client))
    ∧ (∀ (k : Conn) (f : NewClientFunc), s.onNewClientCallback = some f →
        Client.listen { Connection := some k, Server := some s } =
          ⟨[.callNewClient f { Connection := some k, Server := some s }], .ret ()⟩)
    ∧ Function.Injective
        (fun k : Conn => ({ Connection := some k, Server := some s } : Client)) := by
  refine ⟨?_, ?_, ?_, ?_⟩
  · rw [Listen_ok]
    unfold dispatchedPerConnection
    rw [iterations_bindCall]
    exact dispatchedPerConnection_acceptEvents s listener rs
  · rw [Listen_ok, dispatched_bindCall]
    exact dispatched_connected_acceptEvents s listener rs
  · intro k f hf
    simp [Client.listen, hf]
  · intro a b h
    simpa using h

/-- C2, at a failed accept: the loop still builds a handle, with a nil `Connection`, and
dispatches the callback on it; one dispatch, no accepted connection. -/
theorem Listen_dispatches_on_failed_accept :
    dispatched ((server.mk "localhost:9999" none (some .empty) (some .empty)).Listen (.ok 0)
        [.fail "accept tcp: too many open files"]).trace =
      [{ Connection := none,
         Server := some (server.mk "localhost:9999" none (some .empty) (some .empty)) }]
    ∧ accepted [.fail "accept tcp: too many open files"] = [] := by
  decide

/-- C3: once the bind has succeeded, whatever finite sequence of results the accepts give,
connections or errors, Listen has not returned, exited or panicked: it is inside the next
`listener.Accept()`; every result was consumed by one accept, and one more result is
consumed by one more accept and dispatch, after which the loop is again inside `Accept`. -/
theorem Listen_accept_loop_never_ends (s : server) (listener : Listener)
    (rs : List AcceptResult) :
    (s.Listen (.ok listener) rs).result = .blocked listener
    ∧ (s.Listen (.ok listener) rs).result ≠ .ret ()
    ∧ (s.Listen (.ok listener) rs).trace.countP Event.isAccept = rs.length
    ∧ (∀ r : AcceptResult,
        s.Listen (.ok listener) (rs ++ [r]) =
          ⟨(s.Listen (.ok listener) rs).trace ++
              [.accept listener r, .go { Connection := r.connection, Server := some s }],
            .blocked listener⟩) := by
  refine ⟨?_, ?_, ?_, ?_⟩
  · rw [Listen_ok]
  · rw [Listen_ok]; simp
  · rw [Listen_ok]
    have hb : Event.isAccept (s.bindCall (.ok listener)) = false := by
      unfold server.bindCall; cases s.config <;> rfl
    have hc : (acceptEvents s listener rs).countP Event.isAccept = rs.length := by
      induction rs with
      | nil => rfl
      | cons r rest ih => simp [acceptEvents, Event.isAccept, ih]
    simp [List.countP_cons, hb, hc]
  · intro r
    simp [Listen_ok, acceptEvents_append, acceptEvents]

/-- C4: when the bind fails, plaintext or TLS, Listen makes that one bind call, logs the
fatal message and the process exits with status 1: no second bind, no accept, no dispatch,
no callback, no normal return, whatever the listener would have answered. -/
theorem Listen_bind_failure_is_fatal (s : server) (e : Err) (rs : List AcceptResult) :
    s.Listen (.fail e) rs =
        ⟨[s.bindCall (.fail e), .logFatal "Error starting TCP server."], .exit 1⟩
    ∧ (s.Listen (.fail e) rs).result ≠ .ret ()
    ∧ (s.Listen (.fail e) rs).trace.countP Event.isBind = 1
    ∧ (s.Listen (.fail e) rs).trace.countP Event.isAccept = 0
    ∧ dispatched (s.Listen (.fail e) rs).trace = []
    ∧ (s.Listen (.fail e) rs).trace.countP Event.isNewClientCall = 0 := by
  have h : s.Listen (.fail e) rs =
      ⟨[s.bindCall (.fail e), .logFatal "Error starting TCP server."], .exit 1⟩ := rfl
  rw [h]
  unfold server.bindCall
  cases s.config <;> simp [List.countP_cons, Event.isBind, Event.isAccept, dispatched,
    Event.isNewClientCall]

/-! ## Send and Close -/

theorem delivered_append (k : Conn) (a b : List Event) :
    delivered k (a ++ b) = delivered k a ++ delivered k b := by
  induction a with
  | nil => rfl
  | cons e rest ih =>
    cases e <;> simp [delivered, ih]
    split_ifs <;> simp

/-- C6: on a handle that holds a connection `k`, `Send(message)` logs the payload and makes
exactly one `Write` call, on `k`, with `message` itself as argument; when that write
succeeds on a transport that keeps the `io.Writer` contract, the bytes taken for `k` grow
by exactly `message`, and those of every other connection are unchanged. -/
theorem Send_writes_message_once (c : Client) (k : Conn) (message : Bytes)
    (res : WriteResult) (before : List Event) (h : c.Connection = some k) :
    (c.Send message res).trace = [.loggerDebug "Send" message, .write k message res]
    ∧ writes (c.Send message res).trace = [(k, message)]
    ∧ (res.obeys message → res.err = none →
        delivered k (before ++ (c.Send message res).trace) = delivered k before ++ message)
    ∧ (∀ k2 : Conn, k2 ≠ k →
        delivered k2 (before ++ (c.Send message res).trace) = delivered k2 before) := by
  have ht : (c.Send message res).trace = [.loggerDebug "Send" message, .write k message res] := by
    simp [Client.Send, h]
  refine ⟨ht, ?_, ?_, ?_⟩
  · rw [ht]; simp [writes]
  · intro hw herr
    rw [ht, delivered_append]
    simp [delivered, hw.2 herr]
  · intro k2 hk
    rw [ht, delivered_append]
    simp [delivered, Ne.symm hk]

/-- The statement on `Send` at the handle of connection 7, the message `[1, 2, 3]`, a
successful write of 3 bytes, after an earlier write of one byte on the same connection. -/
theorem Send_writes_message_once_witness :
    (Client.Send ⟨some 7, none⟩ [1, 2, 3] ⟨3, none⟩).trace =
        [.loggerDebug "Send" [1, 2, 3], .write 7 [1, 2, 3] ⟨3, none⟩]
    ∧ writes (Client.Send ⟨some 7, none⟩ [1, 2, 3] ⟨3, none⟩).trace = [(7, [1, 2, 3])]
    ∧ ((⟨3, none⟩ : WriteResult).obeys [1, 2, 3] → (⟨3, none⟩ : WriteResult).err = none →
        delivered 7 ([.write 7 [9] ⟨1, none⟩] ++
            (Client.Send ⟨some 7, none⟩ [1, 2, 3] ⟨3, none⟩).trace) =
          delivered 7 [.write 7 [9] ⟨1, none⟩] ++ [1, 2, 3])
    ∧ (∀ k2 : Conn, k2 ≠ 7 →
        delivered k2 ([.write 7 [9] ⟨1, none⟩] ++
            (Client.Send ⟨some 7, none⟩ [1, 2, 3] ⟨3, none⟩).trace) =
          delivered k2 [.write 7 [9] ⟨1, none⟩]) :=
  Send_writes_message_once ⟨some 7, none⟩ 7 [1, 2, 3] ⟨3, none⟩ [.write 7 [9] ⟨1, none⟩] rfl

/-- C7: on a handle that holds a connection `k`, `Send(message)` is the debug log followed
by one call `Write(message)` on `k`, and what `Send` returns is the error that very call
answered with; `Close()` is one call of the transport's `Close` on `k`, and what it returns
is the error that call answered with; in both, as they are: nil exactly when the transport
reports none.  `Close` leaves the handle as it was, so a second `Close` calls the
transport's `Close` again and returns what that call returns. -/
theorem Send_and_Close_return_transport_error (c : Client) (k : Conn) (message : Bytes)
    (wr : WriteResult) (first second : Option Err) (h : c.Connection = some k) :
    c.Send message wr =
        ⟨[.loggerDebug "Send" message, .write k message wr], .ret wr.err⟩
    ∧ writes (c.Send message wr).trace = [(k, message)]
    ∧ (c.Send message wr).result = .ret wr.err
    ∧ ((c.Send message wr).result = .ret none ↔ wr.err = none)
    ∧ c.Close first = ⟨[.close k first], .ret first⟩
    ∧ ((c.Close first).result = .ret none ↔ first = none)
    ∧ c.Close second = ⟨[.close k second], .ret second⟩
    ∧ runOps [.close c first, .close c second] = [.close k first, .close k second] := by
  simp [Client.Send, Client.Close, runOps, Op.events, writes, h]

/-- The statement on `Send` and `Close` at the handle of connection 7: a write failing with
"broken pipe", a first `Close` that succeeds and a second that reports the closed
connection. -/
theorem Send_and_Close_return_transport_error_witness :
    Client.Send ⟨some 7, none⟩ [1, 2] ⟨0, some "broken pipe"⟩ =
        ⟨[.loggerDebug "Send" [1, 2], .write 7 [1, 2] ⟨0, some "broken pipe"⟩],
          .ret (some "broken pipe")⟩
    ∧ writes (Client.Send ⟨some 7, none⟩ [1, 2] ⟨0, some "broken pipe"⟩).trace =
        [(7, [1, 2])]
    ∧ (Client.Send ⟨some 7, none⟩ [1, 2] ⟨0, some "broken pipe"⟩).result =
        .ret (some "broken pipe")
    ∧ ((Client.Send ⟨some 7, none⟩ [1, 2] ⟨0, some "broken pipe"⟩).result = .ret none ↔
        (⟨0, some "broken pipe"⟩ : WriteResult).err = none)
    ∧ Client.Close ⟨some 7, none⟩ none = ⟨[.close 7 none], .ret none⟩
    ∧ ((Client.Close ⟨some 7, none⟩ none).result = .ret none ↔ (none : Option Err) = none)
    ∧ Client.Close ⟨some 7, none⟩ (some "use of closed network connection") =
        ⟨[.close 7 (some "use of closed network connection")],
          .ret (some "use of closed network connection")⟩
    ∧ runOps [.close ⟨some 7, none⟩ none,
          .close ⟨some 7, none⟩ (some "use of closed network connection")] =
        [.close 7 none, .close 7 (some "use of closed network connection")] :=
  Send_and_Close_return_transport_error ⟨some 7, none⟩ 7 [1, 2] ⟨0, some "broken pipe"⟩
    none (some "use of closed network connection") rfl

/-! ## Constructors -/

/-- C8: for every address string, `New` returns (no panic, no exit) the server with that
address, a nil TLS configuration and the two empty func literals as callbacks; `Listen`
on it binds with `net.Listen`, and every handle it dispatches runs the empty literal, which
returns without doing anything. -/
theorem New_never_fails_and_defaults (address : String) :
    New address =
        ⟨[.logPrintln ["Creating server with address", address]],
          .ret (server.mk address none (some .empty) (some .empty))⟩
    ∧ (∀ bind : BindResult,
        (server.mk address none (some .empty) (some .empty)).bindCall bind =
          .netListen "tcp" address bind)
    ∧ (∀ (listener : Listener) (rs : List AcceptResult),
        (dispatched ((server.mk address none (some .empty) (some .empty)).Listen
            (.ok listener) rs).trace).map Client.listen =
          rs.map fun r =>
            ⟨[.callNewClient .empty
                ⟨r.connection, some (server.mk address none (some .empty) (some .empty))⟩],
              .ret ()⟩)
    ∧ (∀ c : Client, NewClientFunc.body .empty c = some [])
    ∧ (∀ (c : Client) (err : Option Err), ClosedFunc.body .empty c err = some []) := by
  refine ⟨rfl, fun _ => rfl, ?_, fun _ => rfl, fun _ _ => rfl⟩
  intro listener rs
  rw [Listen_ok, dispatched_bindCall, dispatched_acceptEvents, List.map_map]
  rfl

/-- C9, at a failed load: `NewWithTLS` returns a server all the same, with a configuration
holding the zero certificate; nothing is reported; that configuration has one certificate,
so the check of `tls.Listen` passes, and `Listen` with a successful bind is in its accept
loop. -/
theorem NewWithTLS_swallows_load_failure :
    NewWithTLS "localhost:9999" "missing.crt" "missing.key"
        (.fail "open missing.crt: no such file or directory") =
      ⟨[.logPrintln ["Creating server with address", "localhost:9999"],
        .loadX509KeyPair "missing.crt" "missing.key"
          (.fail "open missing.crt: no such file or directory")],
        .ret (server.mk "localhost:9999" (some ⟨[Certificate.zero]⟩)
          (some .empty) (some .empty))⟩
    ∧ tlsListenRefuses ⟨[Certificate.zero]⟩ = false
    ∧ (server.mk "localhost:9999" (some ⟨[Certificate.zero]⟩) (some .empty)
          (some .empty)).Listen (.ok 0) [] =
        ⟨[.tlsListen "tcp" "localhost:9999" ⟨[Certificate.zero]⟩ (.ok 0)], .blocked 0⟩ := by
  decide

/-! ## The connection-closed callback -/

theorem closedCalls_acceptEvents (s : server) (listener : Listener) (rs : List AcceptResult) :
    (acceptEvents s listener rs).countP Event.isClosedCall = 0 := by
  induction rs with
  | nil => rfl
  | cons r rest ih => simpa [acceptEvents, Event.isClosedCall] using ih

theorem closedCalls_Listen (s : server) (bind : BindResult) (rs : List AcceptResult) :
    (s.Listen bind rs).trace.countP Event.isClosedCall = 0 := by
  have hb : Event.isClosedCall (s.bindCall bind) = false := by
    unfold server.bindCall; cases s.config <;> rfl
  cases bind with
  | fail e =>
    have hf : Event.isClosedCall (.logFatal "Error starting TCP server.") = false := rfl
    simp [server.Listen, List.countP_cons, hb, hf]
  | ok listener => simp [Listen_ok, hb, closedCalls_acceptEvents]

theorem closedCalls_events (op : Op) : op.events.countP Event.isClosedCall = 0 := by
  cases op with
  | new address => rfl
  | newWithTLS address certFile keyFile load => rfl
  | onNewClient s callback => rfl
  | onClientConnectionClosed s callback => rfl
  | serve s bind accepts => exact closedCalls_Listen s bind accepts
  | dispatch c =>
    obtain ⟨k, srv⟩ := c
    cases srv with
    | none => rfl
    | some srv =>
      cases hcb : srv.onNewClientCallback <;> simp [Op.events, Client.listen, hcb,
        Event.isClosedCall]
  | send c message res =>
    obtain ⟨k, srv⟩ := c
    cases k <;> rfl
  | sendBytes c b res =>
    obtain ⟨k, srv⟩ := c
    cases k <;> rfl
  | conn c => rfl
  | close c res =>
    obtain ⟨k, srv⟩ := c
    cases k <;> rfl

/-- C10: in the events of every sequence of calls into the package (constructors, setters,
Listen with any bind and accept results, the dispatched goroutine, Send, SendBytes, Conn,
Close with any transport answers), no event is a call of an `onClientConnectionClosed`
callback, whatever callback was registered. -/
theorem closed_callback_never_invoked (ops : List Op) :
    (runOps ops).countP Event.isClosedCall = 0 := by
  induction ops with
  | nil => rfl
  | cons op rest ih => simp [runOps, List.countP_append, closedCalls_events, ih]

/-! ## Further properties of the code -/

theorem newClientCalls_acceptEvents (s : server) (listener : Listener)
    (rs : List AcceptResult) :
    (acceptEvents s listener rs).countP Event.isNewClientCall = 0 := by
  induction rs with
  | nil => rfl
  | cons r rest ih => simpa [acceptEvents, Event.isNewClientCall] using ih

/-- Every answer of `Accept`, connection or error, gets one dispatch: the handles dispatched
by the accept loop are, in order, one per answer, holding the first component of that
answer (nil for an error) and the listening server. -/
theorem Listen_dispatches_one_handle_per_accept (s : server) (listener : Listener)
    (rs : List AcceptResult) :
    dispatched (s.Listen (.ok listener) rs).trace =
        rs.map (fun r => ({ Connection := r.connection, Server := some s } : Client))
    ∧ (dispatched (s.Listen (.ok listener) rs).trace).length = rs.length := by
  rw [Listen_ok, dispatched_bindCall, dispatched_acceptEvents]
  simp

/-- The thread of `Listen` calls no callback itself: its events are the bind call, the
accepts and the dispatches. -/
theorem Listen_thread_calls_no_callback (s : server) (bind : BindResult)
    (rs : List AcceptResult) :
    (s.Listen bind rs).trace.countP Event.isNewClientCall = 0 := by
  have hb : Event.isNewClientCall (s.bindCall bind) = false := by
    unfold server.bindCall; cases s.config <;> rfl
  cases bind with
  | fail e =>
    have hf : Event.isNewClientCall (.logFatal "Error starting TCP server.") = false := rfl
    simp [server.Listen, List.countP_cons, hb, hf]
  | ok listener => simp [Listen_ok, hb, newClientCalls_acceptEvents]

/-- Whatever `tls.LoadX509KeyPair` answers, `NewWithTLS` returns a server whose
configuration holds exactly one certificate, the first component of that answer; after a
failed load this is the zero certificate, the error leaves no mark on the server, and the
check of `tls.Listen` on the configuration passes. -/
theorem NewWithTLS_config_has_one_certificate (address certFile keyFile : String)
    (load : LoadResult) (e : Err) :
    (NewWithTLS address certFile keyFile load).result =
        .ret (server.mk address (some ⟨[load.cert]⟩) (some .empty) (some .empty))
    ∧ (NewWithTLS address certFile keyFile (.fail e)).result =
        .ret (server.mk address (some ⟨[Certificate.zero]⟩) (some .empty) (some .empty))
    ∧ tlsListenRefuses ⟨[load.cert]⟩ = false :=
  ⟨rfl, rfl, rfl⟩

/-- Registration overwrites: a setter replaces the callback of its kind, the later
registration wins, and nothing else of the server changes. -/
theorem setters_overwrite (s : server) (f g : Option NewClientFunc)
    (p q : Option ClosedFunc) :
    (s.OnNewClient f).onNewClientCallback = f
    ∧ (s.OnNewClient f).OnNewClient g = s.OnNewClient g
    ∧ (s.OnClientConnectionClosed p).onClientConnectionClosed = p
    ∧ (s.OnClientConnectionClosed p).OnClientConnectionClosed q =
        s.OnClientConnectionClosed q
    ∧ (s.OnNewClient f).address = s.address ∧ (s.OnNewClient f).config = s.config
    ∧ (s.OnNewClient f).onClientConnectionClosed = s.onClientConnectionClosed
    ∧ (s.OnClientConnectionClosed p).address = s.address
    ∧ (s.OnClientConnectionClosed p).config = s.config
    ∧ (s.OnClientConnectionClosed p).onNewClientCallback = s.onNewClientCallback :=
  ⟨rfl, rfl, rfl, rfl, rfl, rfl, rfl, rfl, rfl, rfl⟩

/-- On a handle whose `Connection` is nil, as the accept loop builds after a failed accept,
`Send`, `SendBytes` and `Close` panic without any call to a transport; `Conn` returns
nil. -/
theorem nil_connection_handle_panics (srv : Option server) (b : Bytes) (res : WriteResult)
    (r : Option Err) :
    Client.Send ⟨none, srv⟩ b res = ⟨[.loggerDebug "Send" b], .panic⟩
    ∧ Client.SendBytes ⟨none, srv⟩ b res = ⟨[], .panic⟩
    ∧ Client.Close ⟨none, srv⟩ r = ⟨[], .panic⟩
    ∧ Client.Conn ⟨none, srv⟩ = ⟨[], .ret none⟩ :=
  ⟨rfl, rfl, rfl, rfl⟩

/-- `SendBytes` is `Send` without the log line: one `Write` on the connection with the
argument as given, and the error of that `Write` returned as it is. -/
theorem SendBytes_writes_once (k : Conn) (srv : Option server) (b : Bytes)
    (res : WriteResult) :
    Client.SendBytes ⟨some k, srv⟩ b res = ⟨[.write k b res], .ret res.err⟩
    ∧ (Client.Send ⟨some k, srv⟩ b res).trace =
        .loggerDebug "Send" b :: (Client.SendBytes ⟨some k, srv⟩ b res).trace
    ∧ (Client.Send ⟨some k, srv⟩ b res).result =
        (Client.SendBytes ⟨some k, srv⟩ b res).result :=
  ⟨rfl, rfl, rfl⟩

end tcpserver
